import Mathlib

/-!
Verification of the analytical core of `src/app.py` (a Streamlit trading
helper).  The core consists of three functions:

* `detectar_soporte_resistencia` — rolling minimum (support) and rolling
  maximum (resistance) with pandas semantics `rolling(window, min_periods=1)`;
* `analizar_tendencia` — trend classification from two simple moving averages;
* `get_prediction_and_alerts` — the prediction engine assembling the result.

Floating point NaN is modelled by `Option ℚ`: `none` plays the role of NaN.
Pandas rolling aggregations (`min`, `max`, `mean` with `min_periods=1`) skip
NaN entries inside the window and produce NaN only when the whole window is
NaN; Python comparisons involving NaN are `False`.  Both behaviours are
reproduced below.
-/

/-- A float value: `none` models NaN, `some q` an ordinary number. -/
abbrev Val : Type := Option ℚ

/-- Python comparison `a <= b` on floats: `False` whenever a NaN is involved. -/
def nle (a b : Val) : Bool :=
  match a, b with
  | some x, some y => decide (x ≤ y)
  | _, _ => false

/-- Python comparison `a >= b` on floats: `False` whenever a NaN is involved. -/
def nge (a b : Val) : Bool :=
  match a, b with
  | some x, some y => decide (y ≤ x)
  | _, _ => false

/-- Python comparison `a < b` on floats: `False` whenever a NaN is involved. -/
def nlt (a b : Val) : Bool :=
  match a, b with
  | some x, some y => decide (x < y)
  | _, _ => false

/-- Python comparison `a > b` on floats: `False` whenever a NaN is involved. -/
def ngt (a b : Val) : Bool :=
  match a, b with
  | some x, some y => decide (y < x)
  | _, _ => false

/-- Float addition with a non-NaN constant: NaN propagates. -/
def vadd (a : Val) (q : ℚ) : Val := a.map (· + q)

/-- Float subtraction of a non-NaN constant: NaN propagates. -/
def vsub (a : Val) (q : ℚ) : Val := a.map (· - q)

/-- `series.iloc[-1]` for a pandas Series modelled as a list (the engine only
evaluates it on non-empty series; on `[]` we return NaN). -/
def lastVal (l : List Val) : Val := l.getLastD none

/-- Minimum of a list of numbers; `none` on the empty list.  This is the value
pandas produces for one rolling window after NaNs have been dropped. -/
def listMin : List ℚ → Val
  | [] => none
  | x :: xs => some (xs.foldl min x)

/-- Maximum of a list of numbers; `none` on the empty list. -/
def listMax : List ℚ → Val
  | [] => none
  | x :: xs => some (xs.foldl max x)

/-- Arithmetic mean of a list of numbers; `none` on the empty list. -/
def listMean : List ℚ → Val
  | [] => none
  | x :: xs => some ((x :: xs).sum / ((x :: xs).length : ℚ))

/-- The trailing window of up to `w` elements of `data` ending at index `i`
(the window pandas `rolling(w)` inspects at position `i`). -/
def winAt {α : Type} (data : List α) (w i : ℕ) : List α :=
  (data.take (i + 1)).drop (i + 1 - w)

/-- Apply an aggregator to every trailing window, after dropping the NaN
entries of the window — pandas `rolling(window=w, min_periods=1).agg`. -/
def rollingApply (f : List ℚ → Val) (data : List Val) (w : ℕ) : List Val :=
  (List.range data.length).map (fun i => f ((winAt data w i).filterMap id))

/-- pandas `data.rolling(window=w, min_periods=1).min()`. -/
def rollingMin (data : List Val) (w : ℕ) : List Val := rollingApply listMin data w

/-- pandas `data.rolling(window=w, min_periods=1).max()`. -/
def rollingMax (data : List Val) (w : ℕ) : List Val := rollingApply listMax data w

/-- pandas `data.rolling(window=w, min_periods=1).mean()`. -/
def rollingMean (data : List Val) (w : ℕ) : List Val := rollingApply listMean data w

/-- `detectar_soporte_resistencia(data, window)` from `src/app.py`:
clamps the window to `max(1, min(window, len(data)))`, returns two empty
series on empty input, otherwise rolling min and rolling max. -/
def detectar_soporte_resistencia (data : List Val) (window : ℕ) :
    List Val × List Val :=
  let actual_window := max 1 (min window data.length)
  if data.length = 0 then ([], [])
  else (rollingMin data actual_window, rollingMax data actual_window)

/-- The four strings `analizar_tendencia` can return. -/
inductive Tendencia : Type
  | alcista
  | bajista
  | estable
  | insuficiente
  deriving DecidableEq, Repr

/-- `analizar_tendencia(data, short_sma_window, long_sma_window)` from
`src/app.py`: insufficient data below `long_sma_window`, otherwise the strict
ordering of latest value, short SMA and long SMA decides the label. -/
def analizar_tendencia (data : List Val) (short_sma_window long_sma_window : ℕ) :
    Tendencia :=
  if data.length < long_sma_window then
    Tendencia.insuficiente
  else
    let sma_short := rollingMean data short_sma_window
    let sma_long := rollingMean data long_sma_window
    if ngt (lastVal data) (lastVal sma_short) &&
        ngt (lastVal sma_short) (lastVal sma_long) then
      Tendencia.alcista
    else if nlt (lastVal data) (lastVal sma_short) &&
        nlt (lastVal sma_short) (lastVal sma_long) then
      Tendencia.bajista
    else
      Tendencia.estable

/-- The warnings `get_prediction_and_alerts` can append to
`results["warnings"]`, with the interpolated numbers as fields. -/
inductive Warning : Type
  | noData
  | singlePoint
  | windowAdjusted (requested adjusted : ℕ)
  | srNotComputable
  deriving DecidableEq, Repr

/-- The alert messages of the three tiers, with the interpolated value. -/
inductive AlertMsg : Type
  | alertaMaxima (v : Val)
  | advertenciaAlta (r : Val)
  | alerta5 (v : Val)
  | advertencia5 (r : Val)
  | alertaImportante (v : Val)
  | nota2 (r : Val)
  deriving DecidableEq, Repr

/-- The prediction messages; `above`/`below` interpolate the target value. -/
inductive Prediction : Type
  | above (target : ℚ)
  | below (target : ℚ)
  | uncertain
  | indeterminate
  deriving DecidableEq, Repr

/-- The decision carried by a prediction message, with the interpolated
target stripped. -/
inductive PredKind : Type
  | above
  | below
  | uncertain
  | indeterminate
  deriving DecidableEq, Repr

/-- Strip the interpolated target from a prediction message. -/
def Prediction.kind : Prediction → PredKind
  | .above _ => .above
  | .below _ => .below
  | .uncertain => .uncertain
  | .indeterminate => .indeterminate

/-- Replace the interpolated target of a prediction message. -/
def Prediction.setTarget (t : ℚ) : Prediction → Prediction
  | .above _ => .above t
  | .below _ => .below t
  | .uncertain => .uncertain
  | .indeterminate => .indeterminate

/-- `results["analysis_current"]` of `get_prediction_and_alerts`. -/
structure Analysis : Type where
  actual : Val
  soporte : Val
  resistencia : Val
  target : ℚ
  umbral : ℚ
  deriving DecidableEq, Repr

/-- The `results` dictionary returned by `get_prediction_and_alerts`. -/
structure Results : Type where
  prediction_sr_message : Option Prediction
  alert_2_0_message : Option AlertMsg
  alert_5_0_message : Option AlertMsg
  alert_10_0_message : Option AlertMsg
  tendency_message : Option Tendencia
  analysis_current : Option Analysis
  warnings : List Warning
  deriving DecidableEq, Repr

/-- The S/R window the engine settles on: forced to `1` for a single data
point, otherwise `max(2, min(window, len(data)))` (line 75-77 of app.py). -/
def engineWindow (data : List Val) (window : ℕ) : ℕ :=
  if data.length = 1 then 1 else max 2 (min window data.length)

/-- The final-index support the engine extracts (`soporte.iloc[-1]`). -/
def engineSup (data : List Val) (window : ℕ) : Val :=
  lastVal (detectar_soporte_resistencia data (engineWindow data window)).1

/-- The final-index resistance the engine extracts (`resistencia.iloc[-1]`). -/
def engineRes (data : List Val) (window : ℕ) : Val :=
  lastVal (detectar_soporte_resistencia data (engineWindow data window)).2

/-- `get_prediction_and_alerts(data, target_value, window, umbral,
short_sma_window, long_sma_window)` from `src/app.py`, faithful to the control
flow of lines 60-135. -/
def get_prediction_and_alerts (data : List Val) (target_value : ℚ) (window : ℕ)
    (umbral : ℚ) (short_sma_window long_sma_window : ℕ) : Results :=
  if data.length = 0 then
    { prediction_sr_message := none
      alert_2_0_message := none
      alert_5_0_message := none
      alert_10_0_message := none
      tendency_message := none
      analysis_current := none
      warnings := [Warning.noData] }
  else
    let warnings0 : List Warning :=
      if data.length = 1 then [Warning.singlePoint]
      else if max 2 (min window data.length) < window then
        [Warning.windowAdjusted window (max 2 (min window data.length))]
      else []
    let actual := lastVal data
    let soporte_actual := engineSup data window
    let resistencia_actual := engineRes data window
    let alert10 :=
      if nge actual (some 10) then some (AlertMsg.alertaMaxima actual)
      else if nge resistencia_actual (some 10) then
        some (AlertMsg.advertenciaAlta resistencia_actual)
      else none
    let alert5 :=
      if nge actual (some 5) && nlt actual (some 10) then
        some (AlertMsg.alerta5 actual)
      else if nge resistencia_actual (some 5) &&
          nlt resistencia_actual (some 10) then
        some (AlertMsg.advertencia5 resistencia_actual)
      else none
    let alert2 :=
      if nge actual (some 2) && nlt actual (some 5) then
        some (AlertMsg.alertaImportante actual)
      else if nge resistencia_actual (some 2) &&
          nlt resistencia_actual (some 5) then
        some (AlertMsg.nota2 resistencia_actual)
      else none
    let tendencia := analizar_tendencia data short_sma_window long_sma_window
    if soporte_actual.isNone || resistencia_actual.isNone then
      { prediction_sr_message := some Prediction.indeterminate
        alert_2_0_message := alert2
        alert_5_0_message := alert5
        alert_10_0_message := alert10
        tendency_message := some tendencia
        analysis_current := some
          { actual := actual, soporte := soporte_actual,
            resistencia := resistencia_actual, target := target_value,
            umbral := umbral }
        warnings := warnings0 ++ [Warning.srNotComputable] }
    else
      { prediction_sr_message := some
          (if nle actual (vadd soporte_actual umbral) then
            Prediction.above target_value
          else if nge actual (vsub resistencia_actual umbral) then
            Prediction.below target_value
          else Prediction.uncertain)
        alert_2_0_message := alert2
        alert_5_0_message := alert5
        alert_10_0_message := alert10
        tendency_message := some tendencia
        analysis_current := some
          { actual := actual, soporte := soporte_actual,
            resistencia := resistencia_actual, target := target_value,
            umbral := umbral }
        warnings := warnings0 }

/-! ### Helper lemmas about the rolling-window primitives -/

theorem foldl_min_le_init (xs : List ℚ) (x : ℚ) : xs.foldl min x ≤ x := by
  induction xs generalizing x with
  | nil => exact le_refl x
  | cons y ys ih =>
      exact le_trans (ih (min x y)) (min_le_left x y)

theorem foldl_min_le_mem (xs : List ℚ) :
    ∀ x y : ℚ, y ∈ xs → xs.foldl min x ≤ y := by
  induction xs with
  | nil => intro x y hy; cases hy
  | cons z zs ih =>
      intro x y hy
      rcases List.mem_cons.mp hy with h | h
      · subst h
        exact le_trans (foldl_min_le_init zs (min x y)) (min_le_right x y)
      · exact ih (min x z) y h

theorem foldl_min_mem (xs : List ℚ) : ∀ x : ℚ, xs.foldl min x ∈ x :: xs := by
  induction xs with
  | nil => intro x; exact List.mem_singleton.mpr rfl
  | cons y ys ih =>
      intro x
      have h0 : List.foldl min x (y :: ys) = List.foldl min (min x y) ys := rfl
      rcases List.mem_cons.mp (ih (min x y)) with h | h
      · rcases min_choice x y with hc | hc
        · rw [h0, h, hc]; exact List.mem_cons_self _ _
        · rw [h0, h, hc]
          exact List.mem_cons_of_mem _ (List.mem_cons_self _ _)
      · rw [h0]; exact List.mem_cons_of_mem _ (List.mem_cons_of_mem _ h)

theorem foldl_max_ge_init (xs : List ℚ) (x : ℚ) : x ≤ xs.foldl max x := by
  induction xs generalizing x with
  | nil => exact le_refl x
  | cons y ys ih =>
      exact le_trans (le_max_left x y) (ih (max x y))

theorem foldl_max_ge_mem (xs : List ℚ) :
    ∀ x y : ℚ, y ∈ xs → y ≤ xs.foldl max x := by
  induction xs with
  | nil => intro x y hy; cases hy
  | cons z zs ih =>
      intro x y hy
      rcases List.mem_cons.mp hy with h | h
      · subst h
        exact le_trans (le_max_right x y) (foldl_max_ge_init zs (max x y))
      · exact ih (max x z) y h

theorem foldl_max_mem (xs : List ℚ) : ∀ x : ℚ, xs.foldl max x ∈ x :: xs := by
  induction xs with
  | nil => intro x; exact List.mem_singleton.mpr rfl
  | cons y ys ih =>
      intro x
      have h0 : List.foldl max x (y :: ys) = List.foldl max (max x y) ys := rfl
      rcases List.mem_cons.mp (ih (max x y)) with h | h
      · rcases max_choice x y with hc | hc
        · rw [h0, h, hc]; exact List.mem_cons_self _ _
        · rw [h0, h, hc]
          exact List.mem_cons_of_mem _ (List.mem_cons_self _ _)
      · rw [h0]; exact List.mem_cons_of_mem _ (List.mem_cons_of_mem _ h)

theorem listMin_spec {l : List ℚ} {m : ℚ} (h : listMin l = some m) :
    m ∈ l ∧ ∀ y ∈ l, m ≤ y := by
  cases l with
  | nil => cases h
  | cons x xs =>
      have hm : xs.foldl min x = m := by
        simpa [listMin] using h
      constructor
      · rw [← hm]; exact foldl_min_mem xs x
      · intro y hy
        rw [← hm]
        rcases List.mem_cons.mp hy with h1 | h1
        · subst h1; exact foldl_min_le_init xs y
        · exact foldl_min_le_mem xs x y h1

theorem listMax_spec {l : List ℚ} {M : ℚ} (h : listMax l = some M) :
    M ∈ l ∧ ∀ y ∈ l, y ≤ M := by
  cases l with
  | nil => cases h
  | cons x xs =>
      have hm : xs.foldl max x = M := by
        simpa [listMax] using h
      constructor
      · rw [← hm]; exact foldl_max_mem xs x
      · intro y hy
        rw [← hm]
        rcases List.mem_cons.mp hy with h1 | h1
        · subst h1; exact foldl_max_ge_init xs y
        · exact foldl_max_ge_mem xs x y h1

theorem listMin_eq_none {l : List ℚ} : listMin l = none ↔ l = [] := by
  cases l <;> simp [listMin]

theorem listMax_eq_none {l : List ℚ} : listMax l = none ↔ l = [] := by
  cases l <;> simp [listMax]

theorem listMin_isSome {l : List ℚ} (h : l ≠ []) : ∃ m, listMin l = some m := by
  cases l with
  | nil => exact absurd rfl h
  | cons x xs => exact ⟨xs.foldl min x, rfl⟩

theorem listMax_isSome {l : List ℚ} (h : l ≠ []) : ∃ M, listMax l = some M := by
  cases l with
  | nil => exact absurd rfl h
  | cons x xs => exact ⟨xs.foldl max x, rfl⟩

theorem winAt_length {α : Type} (data : List α) (w i : ℕ)
    (hi : i < data.length) : (winAt data w i).length = min w (i + 1) := by
  simp only [winAt, List.length_drop, List.length_take]
  omega

theorem winAt_subset {α : Type} (data : List α) (w i : ℕ) {x : α}
    (hx : x ∈ winAt data w i) : x ∈ data :=
  List.mem_of_mem_take (List.mem_of_mem_drop hx)

theorem getLast_mem_winAt {α : Type} (d : List α) (w : ℕ) (h : d ≠ [])
    (hw : 1 ≤ w) : d.getLast h ∈ winAt d w (d.length - 1) := by
  have hpos : 0 < d.length := List.length_pos.mpr h
  have h1 : d.length - 1 + 1 = d.length := by omega
  unfold winAt
  rw [h1, List.take_length]
  have hidx :
      (d.drop (d.length - w))[(d.length - 1) - (d.length - w)]? =
        d[d.length - 1]? := by
    rw [List.getElem?_drop]
    congr 1
    omega
  have hi : d.length - 1 < d.length := Nat.sub_lt hpos Nat.one_pos
  have hlast : d[d.length - 1]? = some (d.getLast h) := by
    rw [List.getLast_eq_getElem]
    exact List.getElem?_eq_getElem hi
  exact List.getElem?_mem (by rw [hidx, hlast])

theorem rollingApply_length (f : List ℚ → Val) (data : List Val) (w : ℕ) :
    (rollingApply f data w).length = data.length := by
  simp [rollingApply]

theorem rollingApply_getElem? (f : List ℚ → Val) (data : List Val) (w i : ℕ)
    (hi : i < data.length) :
    (rollingApply f data w)[i]? = some (f ((winAt data w i).filterMap id)) := by
  simp [rollingApply, List.getElem?_map, List.getElem?_range, hi]

theorem lastVal_eq_getElem? (l : List Val) :
    lastVal l = (l[l.length - 1]?).getD none := by
  cases l with
  | nil => rfl
  | cons x xs =>
      simp [lastVal, List.getLastD_eq_getLast?, List.getLast?_eq_getElem?]

theorem lastVal_rollingApply (f : List ℚ → Val) (data : List Val) (w : ℕ)
    (h : data ≠ []) :
    lastVal (rollingApply f data w) =
      f ((winAt data w (data.length - 1)).filterMap id) := by
  have hlen : (rollingApply f data w).length = data.length :=
    rollingApply_length f data w
  have hpos : 0 < data.length := List.length_pos.mpr h
  have hi : data.length - 1 < data.length := Nat.sub_lt hpos Nat.one_pos
  rw [lastVal_eq_getElem?, hlen, rollingApply_getElem? f data w _ hi]
  rfl

theorem winAt_map_some (data : List ℚ) (w i : ℕ) :
    (winAt (data.map some) w i).filterMap id = winAt data w i := by
  simp [winAt, ← List.map_take, ← List.map_drop]

theorem lastVal_map_some (data : List ℚ) (h : data ≠ []) :
    lastVal (data.map some) = some (data.getLast h) := by
  rw [lastVal_eq_getElem?, List.length_map]
  have hpos : 0 < data.length := List.length_pos.mpr h
  have hi : data.length - 1 < data.length := Nat.sub_lt hpos Nat.one_pos
  rw [List.getElem?_map]
  rw [List.getLast_eq_getElem]
  simp [List.getElem?_eq_getElem hi]

/-! ### Helper lemmas about the engine -/

theorem detectar_eq (data : List Val) (w : ℕ) (h : data.length ≠ 0) :
    detectar_soporte_resistencia data w =
      (rollingMin data (max 1 (min w data.length)),
        rollingMax data (max 1 (min w data.length))) := by
  simp [detectar_soporte_resistencia, h]

theorem detectar_fst (data : List Val) (w : ℕ) (h : data.length ≠ 0) :
    (detectar_soporte_resistencia data w).1 =
      rollingApply listMin data (max 1 (min w data.length)) := by
  rw [detectar_eq data w h]
  rfl

theorem detectar_snd (data : List Val) (w : ℕ) (h : data.length ≠ 0) :
    (detectar_soporte_resistencia data w).2 =
      rollingApply listMax data (max 1 (min w data.length)) := by
  rw [detectar_eq data w h]
  rfl

theorem engineWindow_pos (data : List Val) (w : ℕ) :
    1 ≤ engineWindow data w := by
  unfold engineWindow
  split
  · exact le_refl 1
  · exact le_trans one_le_two (le_max_left 2 _)

theorem engineWindow_le (data : List Val) (w : ℕ) (h : data ≠ []) :
    engineWindow data w ≤ data.length := by
  have hpos : 0 < data.length := List.length_pos.mpr h
  unfold engineWindow
  split
  · omega
  · rename_i h1
    have h2 : 2 ≤ data.length := by omega
    exact max_le h2 (min_le_right w _)

theorem engineSup_eq (data : List Val) (w : ℕ) (h : data ≠ []) :
    engineSup data w =
      listMin ((winAt data (engineWindow data w)
        (data.length - 1)).filterMap id) := by
  have hlen : data.length ≠ 0 := (List.length_pos.mpr h).ne'
  have hclamp :
      max 1 (min (engineWindow data w) data.length) = engineWindow data w := by
    have h1 := engineWindow_pos data w
    have h2 := engineWindow_le data w h
    omega
  unfold engineSup
  rw [detectar_eq data _ hlen, hclamp]
  exact lastVal_rollingApply listMin data _ h

theorem engineRes_eq (data : List Val) (w : ℕ) (h : data ≠ []) :
    engineRes data w =
      listMax ((winAt data (engineWindow data w)
        (data.length - 1)).filterMap id) := by
  have hlen : data.length ≠ 0 := (List.length_pos.mpr h).ne'
  have hclamp :
      max 1 (min (engineWindow data w) data.length) = engineWindow data w := by
    have h1 := engineWindow_pos data w
    have h2 := engineWindow_le data w h
    omega
  unfold engineRes
  rw [detectar_eq data _ hlen, hclamp]
  exact lastVal_rollingApply listMax data _ h

/-- On an all-number series the engine's final support and resistance are
numbers bracketing the latest value: the final trailing window contains the
latest element. -/
theorem engine_band (data : List ℚ) (w : ℕ) (h : data ≠ []) :
    ∃ s r, engineSup (data.map some) w = some s ∧
      engineRes (data.map some) w = some r ∧
      s ≤ data.getLast h ∧ data.getLast h ≤ r := by
  have hd : data.map some ≠ [] := by simpa using h
  have hlenmap : (data.map some).length = data.length := List.length_map ..
  have hew1 : 1 ≤ engineWindow (data.map some) w :=
    engineWindow_pos (data.map some) w
  have hwin :
      (winAt (data.map some) (engineWindow (data.map some) w)
        ((data.map some).length - 1)).filterMap id =
      winAt data (engineWindow (data.map some) w) (data.length - 1) := by
    rw [hlenmap, winAt_map_some]
  have hmemwin :
      data.getLast h ∈
        winAt data (engineWindow (data.map some) w) (data.length - 1) := by
    have := getLast_mem_winAt data (engineWindow (data.map some) w) h hew1
    exact this
  have hne :
      winAt data (engineWindow (data.map some) w) (data.length - 1) ≠ [] :=
    List.ne_nil_of_mem hmemwin
  obtain ⟨s, hs⟩ := listMin_isSome hne
  obtain ⟨r, hr⟩ := listMax_isSome hne
  refine ⟨s, r, ?_, ?_, ?_, ?_⟩
  · rw [engineSup_eq (data.map some) w hd, hwin, hs]
  · rw [engineRes_eq (data.map some) w hd, hwin, hr]
  · exact (listMin_spec hs).2 _ hmemwin
  · exact (listMax_spec hr).2 _ hmemwin

theorem run_eq_empty (data : List Val) (t : ℚ) (w : ℕ) (u : ℚ) (sw lw : ℕ)
    (h : data.length = 0) :
    get_prediction_and_alerts data t w u sw lw =
      { prediction_sr_message := none, alert_2_0_message := none,
        alert_5_0_message := none, alert_10_0_message := none,
        tendency_message := none, analysis_current := none,
        warnings := [Warning.noData] } := by
  simp [get_prediction_and_alerts, h]

theorem run_warnings (data : List Val) (t : ℚ) (w : ℕ) (u : ℚ) (sw lw : ℕ)
    (h : data.length ≠ 0) :
    (get_prediction_and_alerts data t w u sw lw).warnings =
      (if data.length = 1 then [Warning.singlePoint]
       else if max 2 (min w data.length) < w then
         [Warning.windowAdjusted w (max 2 (min w data.length))]
       else []) ++
      (if (engineSup data w).isNone || (engineRes data w).isNone then
        [Warning.srNotComputable] else []) := by
  unfold get_prediction_and_alerts
  rw [if_neg h]
  by_cases hnan : ((engineSup data w).isNone || (engineRes data w).isNone) = true
  · simp [hnan]
  · simp [hnan]

theorem run_tendency (data : List Val) (t : ℚ) (w : ℕ) (u : ℚ) (sw lw : ℕ)
    (h : data.length ≠ 0) :
    (get_prediction_and_alerts data t w u sw lw).tendency_message =
      some (analizar_tendencia data sw lw) := by
  unfold get_prediction_and_alerts
  rw [if_neg h]
  by_cases hnan : ((engineSup data w).isNone || (engineRes data w).isNone) = true
  · simp [hnan]
  · simp [hnan]

theorem run_analysis (data : List Val) (t : ℚ) (w : ℕ) (u : ℚ) (sw lw : ℕ)
    (h : data.length ≠ 0) :
    (get_prediction_and_alerts data t w u sw lw).analysis_current =
      some { actual := lastVal data, soporte := engineSup data w,
             resistencia := engineRes data w, target := t, umbral := u } := by
  unfold get_prediction_and_alerts
  rw [if_neg h]
  by_cases hnan : ((engineSup data w).isNone || (engineRes data w).isNone) = true
  · simp [hnan]
  · simp [hnan]

theorem run_alert10 (data : List Val) (t : ℚ) (w : ℕ) (u : ℚ) (sw lw : ℕ)
    (h : data.length ≠ 0) :
    (get_prediction_and_alerts data t w u sw lw).alert_10_0_message =
      (if nge (lastVal data) (some 10) then
        some (AlertMsg.alertaMaxima (lastVal data))
       else if nge (engineRes data w) (some 10) then
        some (AlertMsg.advertenciaAlta (engineRes data w))
       else none) := by
  unfold get_prediction_and_alerts
  rw [if_neg h]
  by_cases hnan : ((engineSup data w).isNone || (engineRes data w).isNone) = true
  · simp [hnan]
  · simp [hnan]

theorem run_alert5 (data : List Val) (t : ℚ) (w : ℕ) (u : ℚ) (sw lw : ℕ)
    (h : data.length ≠ 0) :
    (get_prediction_and_alerts data t w u sw lw).alert_5_0_message =
      (if nge (lastVal data) (some 5) && nlt (lastVal data) (some 10) then
        some (AlertMsg.alerta5 (lastVal data))
       else if nge (engineRes data w) (some 5) &&
          nlt (engineRes data w) (some 10) then
        some (AlertMsg.advertencia5 (engineRes data w))
       else none) := by
  unfold get_prediction_and_alerts
  rw [if_neg h]
  by_cases hnan : ((engineSup data w).isNone || (engineRes data w).isNone) = true
  · simp [hnan]
  · simp [hnan]

theorem run_alert2 (data : List Val) (t : ℚ) (w : ℕ) (u : ℚ) (sw lw : ℕ)
    (h : data.length ≠ 0) :
    (get_prediction_and_alerts data t w u sw lw).alert_2_0_message =
      (if nge (lastVal data) (some 2) && nlt (lastVal data) (some 5) then
        some (AlertMsg.alertaImportante (lastVal data))
       else if nge (engineRes data w) (some 2) &&
          nlt (engineRes data w) (some 5) then
        some (AlertMsg.nota2 (engineRes data w))
       else none) := by
  unfold get_prediction_and_alerts
  rw [if_neg h]
  by_cases hnan : ((engineSup data w).isNone || (engineRes data w).isNone) = true
  · simp [hnan]
  · simp [hnan]

theorem run_prediction_nan (data : List Val) (t : ℚ) (w : ℕ) (u : ℚ)
    (sw lw : ℕ) (h : data.length ≠ 0)
    (hnan : engineSup data w = none ∨ engineRes data w = none) :
    (get_prediction_and_alerts data t w u sw lw).prediction_sr_message =
      some Prediction.indeterminate := by
  unfold get_prediction_and_alerts
  rw [if_neg h]
  have hb : ((engineSup data w).isNone || (engineRes data w).isNone) = true := by
    rcases hnan with h1 | h1 <;> simp [h1]
  simp [hb]

theorem run_prediction_ok (data : List Val) (t : ℚ) (w : ℕ) (u : ℚ)
    (sw lw : ℕ) (h : data.length ≠ 0) (s r : ℚ)
    (hs : engineSup data w = some s) (hr : engineRes data w = some r) :
    (get_prediction_and_alerts data t w u sw lw).prediction_sr_message =
      some (if nle (lastVal data) (some (s + u)) then Prediction.above t
            else if nge (lastVal data) (some (r - u)) then Prediction.below t
            else Prediction.uncertain) := by
  unfold get_prediction_and_alerts
  rw [if_neg h]
  have hb : ((engineSup data w).isNone || (engineRes data w).isNone) = false := by
    simp [hs, hr]
  simp [hb, hs, hr, vadd, vsub]

/-! ### The claims -/

/-- Claim C2: for every series and every requested window,
`detectar_soporte_resistencia` uses the effective window
`max(1, min(requestedWindow, length(series)))`; for each index `i`,
`support[i]` is the minimum and `resistance[i]` the maximum of the trailing
window of up to `effectiveWindow` elements ending at `i`, the window growing
from one element at the start of the series (its length is
`min effectiveWindow (i+1)`); and on the empty series it returns two empty
sequences without error. -/
theorem claim_C2 (data : List ℚ) (w : ℕ) :
    detectar_soporte_resistencia ([] : List Val) w = ([], []) ∧
    ∀ i, i < data.length →
      ((winAt data (max 1 (min w data.length)) i).length
          = min (max 1 (min w data.length)) (i + 1) ∧
        ∃ m M,
          (detectar_soporte_resistencia (data.map some) w).1[i]? =
            some (some m) ∧
          (detectar_soporte_resistencia (data.map some) w).2[i]? =
            some (some M) ∧
          m ∈ winAt data (max 1 (min w data.length)) i ∧
          M ∈ winAt data (max 1 (min w data.length)) i ∧
          ∀ x ∈ winAt data (max 1 (min w data.length)) i, m ≤ x ∧ x ≤ M) := by
  constructor
  · rfl
  · intro i hi
    have hlen : (data.map some).length = data.length := List.length_map ..
    have hlen0 : (data.map some).length ≠ 0 := by omega
    have hiw : i < (data.map some).length := by omega
    have hewm : max 1 (min w (data.map some).length) =
        max 1 (min w data.length) := by rw [hlen]
    have hew1 : 1 ≤ max 1 (min w data.length) := le_max_left 1 _
    have hwlen : (winAt data (max 1 (min w data.length)) i).length =
        min (max 1 (min w data.length)) (i + 1) :=
      winAt_length data _ i hi
    have hwne : winAt data (max 1 (min w data.length)) i ≠ [] := by
      apply List.length_pos.mp
      omega
    obtain ⟨m, hm⟩ := listMin_isSome hwne
    obtain ⟨M, hM⟩ := listMax_isSome hwne
    have hfst : (detectar_soporte_resistencia (data.map some) w).1 =
        rollingApply listMin (data.map some) (max 1 (min w data.length)) := by
      rw [detectar_eq _ _ hlen0, hewm]
      rfl
    have hsnd : (detectar_soporte_resistencia (data.map some) w).2 =
        rollingApply listMax (data.map some) (max 1 (min w data.length)) := by
      rw [detectar_eq _ _ hlen0, hewm]
      rfl
    refine ⟨hwlen, m, M, ?_, ?_, (listMin_spec hm).1, (listMax_spec hM).1, ?_⟩
    · rw [hfst, rollingApply_getElem? _ _ _ _ hiw, winAt_map_some, hm]
    · rw [hsnd, rollingApply_getElem? _ _ _ _ hiw, winAt_map_some, hM]
    · intro x hx
      exact ⟨(listMin_spec hm).2 x hx, (listMax_spec hM).2 x hx⟩

/-- Witness for C2 at the series `[3, 1, 2]`, window `2`, index `2`. -/
theorem claim_C2_witness :
    2 < ([3, 1, 2] : List ℚ).length ∧
    ((winAt ([3, 1, 2] : List ℚ)
        (max 1 (min 2 ([3, 1, 2] : List ℚ).length)) 2).length
          = min (max 1 (min 2 ([3, 1, 2] : List ℚ).length)) (2 + 1) ∧
      ∃ m M,
        (detectar_soporte_resistencia
          (([3, 1, 2] : List ℚ).map some) 2).1[2]? = some (some m) ∧
        (detectar_soporte_resistencia
          (([3, 1, 2] : List ℚ).map some) 2).2[2]? = some (some M) ∧
        m ∈ winAt ([3, 1, 2] : List ℚ)
          (max 1 (min 2 ([3, 1, 2] : List ℚ).length)) 2 ∧
        M ∈ winAt ([3, 1, 2] : List ℚ)
          (max 1 (min 2 ([3, 1, 2] : List ℚ).length)) 2 ∧
        ∀ x ∈ winAt ([3, 1, 2] : List ℚ)
          (max 1 (min 2 ([3, 1, 2] : List ℚ).length)) 2, m ≤ x ∧ x ≤ M) :=
  ⟨by decide, (claim_C2 [3, 1, 2] 2).2 2 (by decide)⟩

/-- Claim C6: the support and resistance sequences both have the same length
as the input series, `support[i] ≤ resistance[i]` wherever both are defined,
and each returned sequence is empty exactly when the input series is empty. -/
theorem claim_C6 (data : List Val) (w : ℕ) :
    (detectar_soporte_resistencia data w).1.length = data.length ∧
    (detectar_soporte_resistencia data w).2.length = data.length ∧
    (∀ (i : ℕ) (s r : ℚ),
      (detectar_soporte_resistencia data w).1[i]? = some (some s) →
      (detectar_soporte_resistencia data w).2[i]? = some (some r) → s ≤ r) ∧
    ((detectar_soporte_resistencia data w).1 = [] ↔ data = []) ∧
    ((detectar_soporte_resistencia data w).2 = [] ↔ data = []) := by
  by_cases h0 : data.length = 0
  · have hnil : data = [] := List.length_eq_zero.mp h0
    subst hnil
    refine ⟨rfl, rfl, ?_, by simp [detectar_soporte_resistencia],
      by simp [detectar_soporte_resistencia]⟩
    intro i s r hs _
    simp [detectar_soporte_resistencia] at hs
  · have hne : data ≠ [] := fun e => h0 (by rw [e]; rfl)
    rw [detectar_fst data w h0, detectar_snd data w h0]
    have hl1 : (rollingApply listMin data (max 1 (min w data.length))).length
        = data.length := rollingApply_length ..
    have hl2 : (rollingApply listMax data (max 1 (min w data.length))).length
        = data.length := rollingApply_length ..
    refine ⟨hl1, hl2, ?_, ?_, ?_⟩
    · intro i s r hs hr
      rcases Nat.lt_or_ge i data.length with hi | hi
      · rw [rollingApply_getElem? _ _ _ _ hi] at hs hr
        have hs1 : listMin ((winAt data (max 1 (min w data.length))
            i).filterMap id) = some s := Option.some.inj hs
        have hr1 : listMax ((winAt data (max 1 (min w data.length))
            i).filterMap id) = some r := Option.some.inj hr
        exact (listMax_spec hr1).2 s (listMin_spec hs1).1
      · rw [List.getElem?_eq_none (by omega)] at hs
        cases hs
    · constructor
      · intro he
        have := congrArg List.length he
        rw [hl1] at this
        exact absurd this h0
      · intro he
        exact absurd he hne
    · constructor
      · intro he
        have := congrArg List.length he
        rw [hl2] at this
        exact absurd this h0
      · intro he
        exact absurd he hne

/-- Witness for C6 at the series `[some 2, none, some 5]`, window `2`,
index `2`. -/
theorem claim_C6_witness :
    (detectar_soporte_resistencia [some 2, none, some 5] 2).1[2]? =
      some (some 5) ∧
    (detectar_soporte_resistencia [some 2, none, some 5] 2).2[2]? =
      some (some 5) ∧
    (5 : ℚ) ≤ 5 :=
  ⟨by decide, by decide,
    (claim_C6 [some 2, none, some 5] 2).2.2.1 2 5 5 (by decide) (by decide)⟩

/-- Claim C1: for every non-empty series whose final-index support and
resistance are numbers (and whose latest value is a number), the prediction is
decided support-check first: value within `threshold` above support gives the
"move above target" message, else value within `threshold` below resistance
gives the "move below target" message, else the "uncertain" message; the
`if`/`else if` shape makes the support branch win whenever both conditions
hold. -/
theorem claim_C1 (data : List Val) (t : ℚ) (w : ℕ) (u : ℚ) (sw lw : ℕ)
    (v s r : ℚ) (h : data ≠ [])
    (hv : lastVal data = some v)
    (hs : engineSup data w = some s)
    (hr : engineRes data w = some r) :
    (get_prediction_and_alerts data t w u sw lw).prediction_sr_message =
      some (if v ≤ s + u then Prediction.above t
            else if v ≥ r - u then Prediction.below t
            else Prediction.uncertain) := by
  have h0 : data.length ≠ 0 := fun e => h (List.length_eq_zero.mp e)
  rw [run_prediction_ok data t w u sw lw h0 s r hs hr, hv]
  simp [nle, nge, ge_iff_le]

/-- Witness for C1 at the series `[1, 2]`, window `5`, threshold `9` (wide
enough that both branch conditions hold, so the support branch is taken). -/
theorem claim_C1_witness :
    ([some 1, some 2] : List Val) ≠ [] ∧
    lastVal [some 1, some 2] = some 2 ∧
    engineSup [some 1, some 2] 5 = some 1 ∧
    engineRes [some 1, some 2] 5 = some 2 ∧
    (get_prediction_and_alerts [some 1, some 2] 7 5 9 5
        20).prediction_sr_message =
      some (if (2 : ℚ) ≤ 1 + 9 then Prediction.above 7
            else if (2 : ℚ) ≥ 2 - 9 then Prediction.below 7
            else Prediction.uncertain) :=
  ⟨by decide, by decide, by decide, by decide,
    claim_C1 [some 1, some 2] 7 5 9 5 20 2 1 2 (by decide) (by decide)
      (by decide) (by decide)⟩

/-- Claim C3: the engine's input-adequacy handling.  Empty series: the result
is exactly the record carrying the "no data" warning and nothing else.
Single-element series: the S/R window is forced to `1` and the single-point
informational warning is emitted.  Multi-element series: the effective S/R
window is `max(2, min(requestedWindow, length))`, and the adjustment warning
naming both values is emitted iff that effective window is below the
requested one. -/
theorem claim_C3 (data : List Val) (t : ℚ) (w : ℕ) (u : ℚ) (sw lw : ℕ) :
    (data.length = 0 →
      get_prediction_and_alerts data t w u sw lw =
        { prediction_sr_message := none, alert_2_0_message := none,
          alert_5_0_message := none, alert_10_0_message := none,
          tendency_message := none, analysis_current := none,
          warnings := [Warning.noData] }) ∧
    (data.length = 1 →
      engineWindow data w = 1 ∧
      Warning.singlePoint ∈
        (get_prediction_and_alerts data t w u sw lw).warnings) ∧
    (2 ≤ data.length →
      engineWindow data w = max 2 (min w data.length) ∧
      (Warning.windowAdjusted w (max 2 (min w data.length)) ∈
          (get_prediction_and_alerts data t w u sw lw).warnings ↔
        max 2 (min w data.length) < w)) := by
  refine ⟨?_, ?_, ?_⟩
  · intro h0
    exact run_eq_empty data t w u sw lw h0
  · intro h1
    constructor
    · unfold engineWindow
      rw [if_pos h1]
    · rw [run_warnings data t w u sw lw (by omega)]
      simp [h1]
  · intro h2
    constructor
    · unfold engineWindow
      rw [if_neg (by omega)]
    · rw [run_warnings data t w u sw lw (by omega)]
      have h1 : ¬ data.length = 1 := by omega
      by_cases hlt : max 2 (min w data.length) < w
      · simp [h1, hlt]
      · by_cases hnan :
          ((engineSup data w).isNone || (engineRes data w).isNone) = true
        · simp [h1, hlt, hnan]
        · simp [h1, hlt, hnan]

/-- Witness for C3 at the empty series, the singleton `[1]` and the pair
`[1, 2]` with requested window `10`. -/
theorem claim_C3_witness :
    (get_prediction_and_alerts [] 1 10 0 5 20 =
      { prediction_sr_message := none, alert_2_0_message := none,
        alert_5_0_message := none, alert_10_0_message := none,
        tendency_message := none, analysis_current := none,
        warnings := [Warning.noData] }) ∧
    (engineWindow [some 1] 10 = 1 ∧
      Warning.singlePoint ∈
        (get_prediction_and_alerts [some 1] 1 10 0 5 20).warnings) ∧
    (engineWindow [some 1, some 2] 10 =
        max 2 (min 10 ([some 1, some 2] : List Val).length) ∧
      (Warning.windowAdjusted 10
          (max 2 (min 10 ([some 1, some 2] : List Val).length)) ∈
          (get_prediction_and_alerts [some 1, some 2] 1 10 0 5 20).warnings ↔
        max 2 (min 10 ([some 1, some 2] : List Val).length) < 10)) :=
  ⟨(claim_C3 [] 1 10 0 5 20).1 rfl,
   (claim_C3 [some 1] 1 10 0 5 20).2.1 rfl,
   (claim_C3 [some 1, some 2] 1 10 0 5 20).2.2 (by decide)⟩

/-- Claim C4: alert evaluation over the latest value `v` and latest
resistance `r`.  Tier 10 fires on the value iff `v ≥ 10`, else on resistance
iff `r ≥ 10`; tier 5 fires on the value iff `5 ≤ v < 10`, else on resistance
iff `5 ≤ r < 10`; tier 2 fires on the value iff `2 ≤ v < 5`, else on
resistance iff `2 ≤ r < 5`.  Each tier's resistance check is the `elif` of
that tier's own value check only, lower tiers are evaluated independently of
higher tiers, and the three messages are retained in separate result
fields. -/
theorem claim_C4 (data : List Val) (t : ℚ) (w : ℕ) (u : ℚ) (sw lw : ℕ)
    (v r : ℚ) (h : data ≠ [])
    (hv : lastVal data = some v)
    (hr : engineRes data w = some r) :
    ((get_prediction_and_alerts data t w u sw lw).alert_10_0_message =
        some (AlertMsg.alertaMaxima (some v)) ↔ 10 ≤ v) ∧
    ((get_prediction_and_alerts data t w u sw lw).alert_10_0_message =
        some (AlertMsg.advertenciaAlta (some r)) ↔ (¬ 10 ≤ v ∧ 10 ≤ r)) ∧
    ((get_prediction_and_alerts data t w u sw lw).alert_5_0_message =
        some (AlertMsg.alerta5 (some v)) ↔ (5 ≤ v ∧ v < 10)) ∧
    ((get_prediction_and_alerts data t w u sw lw).alert_5_0_message =
        some (AlertMsg.advertencia5 (some r)) ↔
          (¬ (5 ≤ v ∧ v < 10) ∧ 5 ≤ r ∧ r < 10)) ∧
    ((get_prediction_and_alerts data t w u sw lw).alert_2_0_message =
        some (AlertMsg.alertaImportante (some v)) ↔ (2 ≤ v ∧ v < 5)) ∧
    ((get_prediction_and_alerts data t w u sw lw).alert_2_0_message =
        some (AlertMsg.nota2 (some r)) ↔
          (¬ (2 ≤ v ∧ v < 5) ∧ 2 ≤ r ∧ r < 5)) := by
  have h0 : data.length ≠ 0 := fun e => h (List.length_eq_zero.mp e)
  rw [run_alert10 data t w u sw lw h0, run_alert5 data t w u sw lw h0,
    run_alert2 data t w u sw lw h0, hv, hr]
  simp only [nge, nlt, Bool.and_eq_true, decide_eq_true_eq]
  split_ifs <;> simp_all

/-- Witness for C4 at the series `[12, 3]` (latest value `3`, resistance
`12`), window `5`. -/
theorem claim_C4_witness :
    ((get_prediction_and_alerts [some 12, some 3] 1 5 0 5
        20).alert_10_0_message =
      some (AlertMsg.advertenciaAlta (some 12)) ↔
        (¬ (10 : ℚ) ≤ 3 ∧ (10 : ℚ) ≤ 12)) ∧
    ((get_prediction_and_alerts [some 12, some 3] 1 5 0 5
        20).alert_2_0_message =
      some (AlertMsg.alertaImportante (some 3)) ↔
        ((2 : ℚ) ≤ 3 ∧ (3 : ℚ) < 5)) :=
  ⟨(claim_C4 [some 12, some 3] 1 5 0 5 20 3 12 (by decide) (by decide)
      (by decide)).2.1,
   (claim_C4 [some 12, some 3] 1 5 0 5 20 3 12 (by decide) (by decide)
      (by decide)).2.2.2.2.1⟩

/-- Claim C5: the trend classifier returns the insufficient-data label
whenever the series is shorter than the long window; otherwise, with `v` the
latest value, `s` the latest short SMA and `l` the latest long SMA, it returns
the bullish label iff `v > s ∧ s > l`, the bearish label iff
`v < s ∧ s < l`, and the stable label in every other case, so any equality
(`v = s` or `s = l`) yields the stable label. -/
theorem claim_C5 (data : List ℚ) (sw lw : ℕ) :
    (data.length < lw →
      analizar_tendencia (data.map some) sw lw = Tendencia.insuficiente) ∧
    (lw ≤ data.length → data ≠ [] →
      ∀ v s l : ℚ,
        lastVal (data.map some) = some v →
        lastVal (rollingMean (data.map some) sw) = some s →
        lastVal (rollingMean (data.map some) lw) = some l →
        ((analizar_tendencia (data.map some) sw lw = Tendencia.alcista ↔
            (s < v ∧ l < s)) ∧
         (analizar_tendencia (data.map some) sw lw = Tendencia.bajista ↔
            (v < s ∧ s < l)) ∧
         (analizar_tendencia (data.map some) sw lw = Tendencia.estable ↔
            (¬ (s < v ∧ l < s) ∧ ¬ (v < s ∧ s < l))) ∧
         (v = s ∨ s = l →
            analizar_tendencia (data.map some) sw lw = Tendencia.estable))) := by
  constructor
  · intro hlt
    unfold analizar_tendencia
    rw [if_pos (by rw [List.length_map]; omega)]
  · intro hlw hne v s l hv hs hl
    have hmain :
        (analizar_tendencia (data.map some) sw lw = Tendencia.alcista ↔
          (s < v ∧ l < s)) ∧
        (analizar_tendencia (data.map some) sw lw = Tendencia.bajista ↔
          (v < s ∧ s < l)) ∧
        (analizar_tendencia (data.map some) sw lw = Tendencia.estable ↔
          (¬ (s < v ∧ l < s) ∧ ¬ (v < s ∧ s < l))) := by
      unfold analizar_tendencia
      rw [if_neg (by rw [List.length_map]; omega)]
      simp only [hv, hs, hl, ngt, nlt, Bool.and_eq_true, decide_eq_true_eq]
      split_ifs with hb1 hb2
      · simp_all
        intro h3
        exact absurd h3 (asymm hb1.1)
      · simp_all
      · simp_all
    refine ⟨hmain.1, hmain.2.1, hmain.2.2, ?_⟩
    intro hd
    apply hmain.2.2.mpr
    constructor
    · rintro ⟨h1, h2⟩
      rcases hd with he | he
      · rw [he] at h1; exact lt_irrefl s h1
      · rw [he] at h2; exact lt_irrefl l h2
    · rintro ⟨h1, h2⟩
      rcases hd with he | he
      · rw [he] at h1; exact lt_irrefl s h1
      · rw [he] at h2; exact lt_irrefl l h2

/-- Witness for C5: `[1]` with long window `5` is insufficient; `[1, 2, 4]`
with windows `2`/`3` has `v = 4`, short SMA `3`, long SMA `7/3` and is
classified bullish. -/
theorem claim_C5_witness :
    analizar_tendencia (([1] : List ℚ).map some) 2 5 =
      Tendencia.insuficiente ∧
    (analizar_tendencia (([1, 2, 4] : List ℚ).map some) 2 3 =
        Tendencia.alcista ↔ ((3 : ℚ) < 4 ∧ (7/3 : ℚ) < 3)) :=
  ⟨(claim_C5 [1] 2 5).1 (by decide),
   ((claim_C5 [1, 2, 4] 2 3).2 (by decide) (by decide) 4 3 (7/3)
      (by with_unfolding_all decide) (by with_unfolding_all decide)
      (by with_unfolding_all decide)).1⟩

theorem finalWin_ne_nil (data : List Val) (w : ℕ) (h : data ≠ []) :
    winAt data (engineWindow data w) (data.length - 1) ≠ [] := by
  have hpos : 0 < data.length := List.length_pos.mpr h
  have hlen := winAt_length data (engineWindow data w) (data.length - 1)
    (by omega)
  have h1 := engineWindow_pos data w
  apply List.length_pos.mp
  rw [hlen]
  omega

/-- If the engine's final support (or resistance) is NaN, every value of the
final rolling window — in particular at least one value of the series — is
NaN. -/
theorem nan_final_sr_mem (data : List Val) (w : ℕ) (h : data ≠ [])
    (hnan : engineSup data w = none ∨ engineRes data w = none) :
    none ∈ data := by
  have hwne := finalWin_ne_nil data w h
  have hempty :
      (winAt data (engineWindow data w) (data.length - 1)).filterMap id
        = [] := by
    rcases hnan with h1 | h1
    · rw [engineSup_eq data w h] at h1
      exact listMin_eq_none.mp h1
    · rw [engineRes_eq data w h] at h1
      exact listMax_eq_none.mp h1
  rw [List.filterMap_eq_nil_iff] at hempty
  obtain ⟨x, hx⟩ :=
    List.exists_mem_of_ne_nil _ hwne
  have hxnone : x = none := hempty x hx
  subst hxnone
  exact winAt_subset data _ _ hx

/-- Counterexample to C7 as stated: the series `[1, NaN]` has a NaN value in
its final rolling window (the engine's window is `2`, so the final window is
the whole series), yet the prediction is the "uncertain" message, not the
indeterminate sentinel, and no S/R warning is emitted — pandas rolling
min/max skip NaN entries, so the final support and resistance are `1`. -/
theorem claim_C7_counterexample :
    (none : Val) ∈
      winAt ([some 1, none] : List Val) (engineWindow [some 1, none] 10) 1 ∧
    (get_prediction_and_alerts [some 1, none] (3/2) 10 (1/100) 5
        20).prediction_sr_message = some Prediction.uncertain ∧
    (get_prediction_and_alerts [some 1, none] (3/2) 10 (1/100) 5
        20).prediction_sr_message ≠ some Prediction.indeterminate ∧
    Warning.srNotComputable ∉
      (get_prediction_and_alerts [some 1, none] (3/2) 10 (1/100) 5
        20).warnings := by
  refine ⟨?_, ?_, ?_, ?_⟩ <;> with_unfolding_all decide

/-- Claim C7 (amended): the engine sets the prediction to the indeterminate
sentinel exactly when the final-index support or resistance is NaN — which
(because pandas rolling min/max skip NaN inside a window) requires every
value in the final rolling window to be NaN, and in particular only happens
when the series itself contains NaN; in that case the S/R warning is also
emitted.  A NaN merely present in the final window alongside a number does
not trigger the sentinel. -/
theorem claim_C7_amended (data : List Val) (t : ℚ) (w : ℕ) (u : ℚ)
    (sw lw : ℕ) (h : data ≠ []) :
    ((get_prediction_and_alerts data t w u sw lw).prediction_sr_message =
        some Prediction.indeterminate ↔
      (engineSup data w = none ∨ engineRes data w = none)) ∧
    ((engineSup data w = none ∨ engineRes data w = none) →
      Warning.srNotComputable ∈
        (get_prediction_and_alerts data t w u sw lw).warnings ∧
      none ∈ data) ∧
    ((engineSup data w ≠ none ∧ engineRes data w ≠ none) →
      Warning.srNotComputable ∉
        (get_prediction_and_alerts data t w u sw lw).warnings) := by
  have h0 : data.length ≠ 0 := fun e => h (List.length_eq_zero.mp e)
  refine ⟨⟨?_, ?_⟩, ?_, ?_⟩
  · intro hpred
    by_contra hcon
    push_neg at hcon
    obtain ⟨hs1, hr1⟩ := hcon
    obtain ⟨s, hs⟩ := Option.ne_none_iff_exists'.mp hs1
    obtain ⟨r, hr⟩ := Option.ne_none_iff_exists'.mp hr1
    rw [run_prediction_ok data t w u sw lw h0 s r hs hr] at hpred
    have hthis := Option.some.inj hpred
    split_ifs at hthis
  · intro hnan
    exact run_prediction_nan data t w u sw lw h0 hnan
  · intro hnan
    constructor
    · rw [run_warnings data t w u sw lw h0]
      have hb : ((engineSup data w).isNone || (engineRes data w).isNone)
          = true := by
        rcases hnan with h1 | h1 <;> simp [h1]
      simp [hb]
    · exact nan_final_sr_mem data w h hnan
  · rintro ⟨hs1, hr1⟩
    obtain ⟨s, hs⟩ := Option.ne_none_iff_exists'.mp hs1
    obtain ⟨r, hr⟩ := Option.ne_none_iff_exists'.mp hr1
    rw [run_warnings data t w u sw lw h0]
    have hb : ((engineSup data w).isNone || (engineRes data w).isNone)
        = false := by
      simp [hs, hr]
    rw [hb]
    split_ifs <;> simp_all

/-- Witness for the amended C7 at the all-NaN singleton series. -/
theorem claim_C7_witness :
    ((get_prediction_and_alerts [none] (3/2) 10 (1/100) 5
        20).prediction_sr_message = some Prediction.indeterminate ↔
      (engineSup [none] 10 = none ∨ engineRes [none] 10 = none)) ∧
    (Warning.srNotComputable ∈
        (get_prediction_and_alerts [none] (3/2) 10 (1/100) 5 20).warnings ∧
      (none : Val) ∈ ([none] : List Val)) :=
  ⟨(claim_C7_amended [none] (3/2) 10 (1/100) 5 20 (by decide)).1,
   (claim_C7_amended [none] (3/2) 10 (1/100) 5 20 (by decide)).2.1
     (Or.inl (by decide))⟩

/-- Claim C8: on every non-empty all-number series the latest value lies
inside the final extrema band, `support ≤ latest ≤ resistance` (the final
trailing window always contains the latest element); hence a latest value
`≥ 10` forces the final resistance `≥ 10`, and the tier-10 resistance-only
warning can fire only when the latest value is strictly below `10`. -/
theorem claim_C8 (data : List ℚ) (t : ℚ) (w : ℕ) (u : ℚ) (sw lw : ℕ)
    (h : data ≠ []) :
    ∃ s r : ℚ,
      engineSup (data.map some) w = some s ∧
      engineRes (data.map some) w = some r ∧
      s ≤ data.getLast h ∧ data.getLast h ≤ r ∧
      (10 ≤ data.getLast h → 10 ≤ r) ∧
      ((get_prediction_and_alerts (data.map some) t w u sw
          lw).alert_10_0_message = some (AlertMsg.advertenciaAlta (some r)) →
        data.getLast h < 10) := by
  obtain ⟨s, r, hs, hr, h1, h2⟩ := engine_band data w h
  refine ⟨s, r, hs, hr, h1, h2, fun h10 => le_trans h10 h2, ?_⟩
  intro halert
  by_contra hge
  push_neg at hge
  have h0 : (data.map some).length ≠ 0 := by
    rw [List.length_map]
    exact (List.length_pos.mpr h).ne'
  rw [run_alert10 (data.map some) t w u sw lw h0,
    lastVal_map_some data h] at halert
  have hcond : nge (some (data.getLast h)) (some 10) = true := by
    simp [nge, hge]
  rw [if_pos hcond] at halert
  simp at halert

/-- Witness for C8 at the singleton series `[1]`. -/
theorem claim_C8_witness :
    ∃ s r : ℚ,
      engineSup (([1] : List ℚ).map some) 10 = some s ∧
      engineRes (([1] : List ℚ).map some) 10 = some r ∧
      s ≤ ([1] : List ℚ).getLast (by decide) ∧
      ([1] : List ℚ).getLast (by decide) ≤ r ∧
      (10 ≤ ([1] : List ℚ).getLast (by decide) → 10 ≤ r) ∧
      ((get_prediction_and_alerts (([1] : List ℚ).map some) 1 10 0 5
          20).alert_10_0_message = some (AlertMsg.advertenciaAlta (some r)) →
        ([1] : List ℚ).getLast (by decide) < 10) :=
  claim_C8 [1] 1 10 0 5 20 (by decide)

/-- Claim C9: the target value does not interfere with any decision.  Two
engine runs on the same series, window, threshold and SMA windows that differ
only in the target produce the same alert fields, the same tendency message,
the same warnings, analyses differing only in the echoed target, and
prediction messages equal up to replacing the interpolated target. -/
theorem claim_C9 (data : List Val) (w : ℕ) (u : ℚ) (sw lw : ℕ) (t1 t2 : ℚ) :
    (get_prediction_and_alerts data t2 w u sw lw).prediction_sr_message =
      (get_prediction_and_alerts data t1 w u sw
        lw).prediction_sr_message.map (Prediction.setTarget t2) ∧
    (get_prediction_and_alerts data t2 w u sw lw).alert_2_0_message =
      (get_prediction_and_alerts data t1 w u sw lw).alert_2_0_message ∧
    (get_prediction_and_alerts data t2 w u sw lw).alert_5_0_message =
      (get_prediction_and_alerts data t1 w u sw lw).alert_5_0_message ∧
    (get_prediction_and_alerts data t2 w u sw lw).alert_10_0_message =
      (get_prediction_and_alerts data t1 w u sw lw).alert_10_0_message ∧
    (get_prediction_and_alerts data t2 w u sw lw).tendency_message =
      (get_prediction_and_alerts data t1 w u sw lw).tendency_message ∧
    (get_prediction_and_alerts data t2 w u sw lw).warnings =
      (get_prediction_and_alerts data t1 w u sw lw).warnings ∧
    (get_prediction_and_alerts data t2 w u sw lw).analysis_current =
      (get_prediction_and_alerts data t1 w u sw lw).analysis_current.map
        (fun a => { a with target := t2 }) := by
  by_cases h0 : data.length = 0
  · rw [run_eq_empty data t1 w u sw lw h0, run_eq_empty data t2 w u sw lw h0]
    simp
  · refine ⟨?_, ?_, ?_, ?_, ?_, ?_, ?_⟩
    · rcases hsup : engineSup data w with _ | s
      · rw [run_prediction_nan data t1 w u sw lw h0 (Or.inl hsup),
          run_prediction_nan data t2 w u sw lw h0 (Or.inl hsup)]
        rfl
      · rcases hres : engineRes data w with _ | r
        · rw [run_prediction_nan data t1 w u sw lw h0 (Or.inr hres),
            run_prediction_nan data t2 w u sw lw h0 (Or.inr hres)]
          rfl
        · rw [run_prediction_ok data t1 w u sw lw h0 s r hsup hres,
            run_prediction_ok data t2 w u sw lw h0 s r hsup hres]
          split_ifs <;> rfl
    · rw [run_alert2 data t1 w u sw lw h0, run_alert2 data t2 w u sw lw h0]
    · rw [run_alert5 data t1 w u sw lw h0, run_alert5 data t2 w u sw lw h0]
    · rw [run_alert10 data t1 w u sw lw h0, run_alert10 data t2 w u sw lw h0]
    · rw [run_tendency data t1 w u sw lw h0, run_tendency data t2 w u sw lw h0]
    · rw [run_warnings data t1 w u sw lw h0, run_warnings data t2 w u sw lw h0]
    · rw [run_analysis data t1 w u sw lw h0, run_analysis data t2 w u sw lw h0]
      rfl

/-- Claim C10: on every singleton series `[x]` with `x` a number and any
threshold `≥ 0`, support and resistance both equal `x`, so the support
condition `x ≤ x + threshold` always holds and the prediction is the "move
above target" message, with the single-point warning emitted alongside —
whatever the target and requested window. -/
theorem claim_C10 (x t : ℚ) (w : ℕ) (u : ℚ) (sw lw : ℕ) (hu : 0 ≤ u) :
    (get_prediction_and_alerts [some x] t w u sw lw).prediction_sr_message =
      some (Prediction.above t) ∧
    Warning.singlePoint ∈
      (get_prediction_and_alerts [some x] t w u sw lw).warnings := by
  have h0 : ([some x] : List Val).length ≠ 0 := by simp
  have hs : engineSup [some x] w = some x := rfl
  have hr : engineRes [some x] w = some x := rfl
  constructor
  · rw [run_prediction_ok [some x] t w u sw lw h0 x x hs hr]
    have hv : lastVal [some x] = some x := rfl
    rw [hv]
    have hcond : nle (some x) (some (x + u)) = true := by
      simp [nle]
      linarith
    rw [if_pos hcond]
  · rw [run_warnings [some x] t w u sw lw h0]
    simp

/-- Witness for C10 at `x = 1`, threshold `0`. -/
theorem claim_C10_witness :
    (0 : ℚ) ≤ 0 ∧
    ((get_prediction_and_alerts [some 1] 7 10 0 5 20).prediction_sr_message =
        some (Prediction.above 7) ∧
      Warning.singlePoint ∈
        (get_prediction_and_alerts [some 1] 7 10 0 5 20).warnings) :=
  ⟨le_refl 0, claim_C10 1 7 10 0 5 20 (le_refl 0)⟩
